import Mathlib

set_option maxRecDepth 100000

/-!
Verification of the email-workflow engine of `src/07_workflow_agent.py`
(class `EmailWorkflowToolkit`).

Embedding conventions:
* Python strings become `String`; `len` counts code points, as `String.length`
  does; the Python substring test `needle in hay` becomes `strContains`.
* The toolkit object's mutable fields become the structure
  `EmailWorkflowToolkit`; every operation takes the current toolkit value and
  returns the updated toolkit together with its result.
* The source signals every failure by returning a message that starts with
  the cross mark instead of raising; each distinct failure message is
  embedded as a constructor of `WfError` (the spec names them `NoDraftError`,
  `InvalidTransitionError`, `ValidationError`), and a success return becomes
  `Except.ok` carrying the operation's payload.
* The source keeps no persistent record of review findings: `review_points`
  is local to `review_email` and is only rendered into the returned report.
  The field `review_notes` below is therefore modelled from the spec (see its
  doc comment); every other field and every operation is translated from the
  source.
-/

/-- Workflow execution states, from the source enum `WorkflowState`
(values "draft", "review", "approved", "sent", "completed"). -/
inductive WorkflowState where
  | DRAFT
  | REVIEW
  | APPROVED
  | SENT
  | COMPLETED
deriving DecidableEq, Repr

/-- The draft payload stored in `self.email_draft` (a dict with exactly the
keys "recipient", "subject", "body", "purpose"). -/
structure EmailDraft where
  recipient : String
  subject : String
  body : String
  purpose : String
deriving DecidableEq, Repr

/-- Error outcomes of the toolkit operations.  Each constructor corresponds
to one family of cross-marked failure messages in the source:
`noDraft` to "No email draft to review/approve/send.",
`invalidTransition` to "Email must be reviewed before approval." and
"Email must be approved before sending.", and `validation` to the
`ValidationError` the spec describes (the source never produces it). -/
inductive WfError where
  | noDraft
  | invalidTransition
  | validation
deriving DecidableEq, Repr

/-- Mutable state of the toolkit object.  `workflow_state` and `email_draft`
are the source's instance fields (`self.email_draft = {}`, an empty dict,
is modelled as `none`).  `review_notes` is modelled from the spec: the spec's
data model gives the instance an ordered sequence of review findings that
`create` clears and each `review` appends to; the source computes exactly
those findings in `review_email` (local `review_points`) but does not store
them on the object. -/
structure EmailWorkflowToolkit where
  workflow_state : WorkflowState
  email_draft : Option EmailDraft
  review_notes : List String
deriving DecidableEq, Repr

/-- Initial toolkit state, from `__init__`: `workflow_state = DRAFT`,
`email_draft = {}` (no draft), and no review findings recorded yet. -/
def initToolkit : EmailWorkflowToolkit :=
  { workflow_state := .DRAFT, email_draft := none, review_notes := [] }

/-- Whether `pat` is an initial segment of `l` (helper for `strContains`). -/
def listStarts : List Char → List Char → Bool
  | _, [] => true
  | [], _ :: _ => false
  | a :: as, b :: bs => a = b && listStarts as bs

/-- Whether `pat` occurs as a contiguous segment of `l`
(helper for `strContains`). -/
def listHas : List Char → List Char → Bool
  | [], pat => listStarts [] pat
  | l@(_ :: t), pat => listStarts l pat || listHas t pat

/-- Embedding of the Python substring test `needle in hay`. -/
def strContains (hay needle : String) : Bool :=
  listHas hay.data needle.data

/-- The "follow-up" template of `draft_email`, with `recipient` and
`subject` interpolated as in the source f-string. -/
def followUpTemplate (recipient subject : String) : String :=
  "Dear " ++ recipient ++ ",\n\nI hope this email finds you well. I wanted to follow up on our recent conversation regarding " ++ subject ++ ".\n\nPlease let me know if you have any questions or if there's anything I can help clarify.\n\nBest regards,\nACME Corporation"

/-- The "proposal" template of `draft_email`. -/
def proposalTemplate (recipient subject : String) : String :=
  "Dear " ++ recipient ++ ",\n\nThank you for your interest in ACME Corporation's services. I'm pleased to present our proposal for " ++ subject ++ ".\n\nWe believe our solution can provide significant value to your organization. I'd be happy to schedule a call to discuss the details.\n\nBest regards,\nACME Corporation"

/-- The "support" template of `draft_email`. -/
def supportTemplate (recipient subject : String) : String :=
  "Dear " ++ recipient ++ ",\n\nThank you for contacting ACME Corporation support regarding " ++ subject ++ ".\n\nWe've reviewed your request and are working on a solution. I'll keep you updated on our progress.\n\nIf you have any urgent concerns, please don't hesitate to reach out.\n\nBest regards,\nACME Support Team"

/-- The fallback template of `draft_email`, used when the lower-cased
purpose is not a key of the template dict. -/
def defaultTemplate (recipient subject : String) : String :=
  "Dear " ++ recipient ++ ",\n\nThank you for your message regarding " ++ subject ++ ".\n\nI'll get back to you with more information shortly.\n\nBest regards,\nACME Corporation"

/-- Embedding of the Python `str.lower()` call applied to the purpose
(the template keys are ASCII, where Python lowercasing and `Char.toLower`
agree). -/
def pyLower (s : String) : String :=
  ⟨s.data.map Char.toLower⟩

/-- Body selection of `draft_email`: `purpose.lower()` is looked up among
the keys "follow-up", "proposal", "support"; any other purpose falls back
to the generic template. -/
def mkBody (recipient subject purpose : String) : String :=
  let p := pyLower purpose
  if p = "follow-up" then followUpTemplate recipient subject
  else if p = "proposal" then proposalTemplate recipient subject
  else if p = "support" then supportTemplate recipient subject
  else defaultTemplate recipient subject

/-- The draft dict `draft_email` assigns to `self.email_draft`. -/
def mkDraft (recipient subject purpose : String) : EmailDraft :=
  { recipient := recipient, subject := subject
    body := mkBody recipient subject purpose, purpose := purpose }

/-- Embedding of `draft_email`: composes the body from the purpose-selected
template, stores the new draft dict, and sets `workflow_state = DRAFT`.
The source performs no input validation and has no failure path;
`review_notes` is reset because the spec has `create` clear the recorded
findings (and no finding recorded by the source survives a new draft). -/
def draft_email (_t : EmailWorkflowToolkit) (recipient subject purpose : String) :
    EmailWorkflowToolkit × Except WfError EmailDraft :=
  let d := mkDraft recipient subject purpose
  ({ workflow_state := .DRAFT, email_draft := some d, review_notes := [] }, .ok d)

/-- The review findings `review_email` computes into its local
`review_points` list, given the current draft and the optional `feedback`
argument (default `None`; the Python truthiness test `if feedback:` is false
for both `None` and the empty string). -/
def reviewPoints (d : EmailDraft) (feedback : Option String) : List String :=
  let pts : List String := []
  let pts := if d.subject.length < 5 then pts ++ ["📧 Subject line seems too short"]
    else if 50 < d.subject.length then pts ++ ["📧 Subject line might be too long"]
    else pts
  let pts := if d.body.length < 50 then pts ++ ["📝 Email body seems very brief"]
    else if strContains d.body "ACME Corporation" = false then
      pts ++ ["🏢 Consider adding company branding"]
    else pts
  let pts := match feedback with
    | some f => if f ≠ "" then pts ++ ["💭 Human feedback: " ++ f] else pts
    | none => pts
  if pts = [] then ["✅ Email looks good, ready for approval"] else pts

/-- Embedding of `review_email`: fails when no draft exists, otherwise sets
`workflow_state = REVIEW` (unconditionally — the source never inspects the
prior state here) and reports the computed findings, which are appended to
the spec-modelled `review_notes`. -/
def review_email (t : EmailWorkflowToolkit) (feedback : Option String) :
    EmailWorkflowToolkit × Except WfError (List String) :=
  match t.email_draft with
  | none => (t, .error .noDraft)
  | some d =>
    let pts := reviewPoints d feedback
    ({ t with workflow_state := .REVIEW, review_notes := t.review_notes ++ pts },
      .ok pts)

/-- Embedding of `approve_email` (Python signature `approved: bool = True`):
fails when no draft exists, fails when the state is not `REVIEW`, otherwise
moves to `APPROVED` on `true` and back to `DRAFT` on `false`, touching
nothing else. -/
def approve_email (t : EmailWorkflowToolkit) (approved : Bool := true) :
    EmailWorkflowToolkit × Except WfError Bool :=
  match t.email_draft with
  | none => (t, .error .noDraft)
  | some _ =>
    if t.workflow_state ≠ .REVIEW then (t, .error .invalidTransition)
    else if approved then ({ t with workflow_state := .APPROVED }, .ok true)
    else ({ t with workflow_state := .DRAFT }, .ok false)

/-- Embedding of `send_email`: fails when no draft exists, fails when the
state is not `APPROVED`, otherwise moves to `SENT`. -/
def send_email (t : EmailWorkflowToolkit) :
    EmailWorkflowToolkit × Except WfError Unit :=
  match t.email_draft with
  | none => (t, .error .noDraft)
  | some _ =>
    if t.workflow_state ≠ .APPROVED then (t, .error .invalidTransition)
    else ({ t with workflow_state := .SENT }, .ok ())

/-- Toolkit states reachable from the initial object through the four
mutating operations (`get_workflow_status` reads but never writes). -/
inductive Reachable : EmailWorkflowToolkit → Prop where
  | init : Reachable initToolkit
  | draft (t : EmailWorkflowToolkit) (r s p : String) :
      Reachable t → Reachable (draft_email t r s p).1
  | review (t : EmailWorkflowToolkit) (fb : Option String) :
      Reachable t → Reachable (review_email t fb).1
  | approve (t : EmailWorkflowToolkit) (b : Bool) :
      Reachable t → Reachable (approve_email t b).1
  | send (t : EmailWorkflowToolkit) :
      Reachable t → Reachable (send_email t).1

/-- A draft used as concrete input by several witnesses. -/
def sampleDraft : EmailDraft := mkDraft "r" "greetings" "misc"

/-- A toolkit in state `SENT` holding `sampleDraft`. -/
def sentSample : EmailWorkflowToolkit :=
  { workflow_state := .SENT, email_draft := some sampleDraft, review_notes := [] }

/-- A toolkit in state `REVIEW` holding `sampleDraft`. -/
def reviewSample : EmailWorkflowToolkit :=
  { workflow_state := .REVIEW, email_draft := some sampleDraft, review_notes := [] }

/-- The human-feedback finding starts with the thought-balloon character,
whatever the feedback text is. -/
theorem hfHead (f : String) :
    ("💭 Human feedback: " ++ f).data.head? = some '💭' := rfl

/-- A string whose first character is not the thought-balloon character is
never a human-feedback finding. -/
theorem hfNe (f s : String) (h : s.data.head? ≠ some '💭') :
    ("💭 Human feedback: " ++ f) ≠ s := by
  intro he
  exact h (he ▸ hfHead f)

theorem ite_nil_branch_ne_nil (l : List String) (x : String) :
    (if l = [] then [x] else l) ≠ [] := by
  split
  · simp
  · next h => exact h

/-- `review_email` never reports an empty findings list: when every check
passes and no feedback was given, the looks-good finding is emitted. -/
theorem reviewPoints_ne_nil (d : EmailDraft) (fb : Option String) :
    reviewPoints d fb ≠ [] := by
  unfold reviewPoints
  dsimp only
  exact ite_nil_branch_ne_nil _ _

/-- C1: for every toolkit holding a draft, `approve_email` called from any
state other than `REVIEW` and `send_email` called from any state other than
`APPROVED` return the invalid-transition error and leave the whole toolkit
value — state, draft payload and review notes — unchanged; with no draft
present both operations return the no-draft error, again without mutating
anything (check-then-act, no partial mutation). -/
theorem approve_send_guarded (t : EmailWorkflowToolkit) (b : Bool) :
    (t.email_draft = none →
      approve_email t b = (t, .error .noDraft) ∧
      send_email t = (t, .error .noDraft)) ∧
    (∀ d, t.email_draft = some d →
      (t.workflow_state ≠ .REVIEW →
        approve_email t b = (t, .error .invalidTransition)) ∧
      (t.workflow_state ≠ .APPROVED →
        send_email t = (t, .error .invalidTransition))) := by
  refine ⟨fun h => ⟨?_, ?_⟩, fun d h => ⟨fun hs => ?_, fun hs => ?_⟩⟩
  · simp [approve_email, h]
  · simp [send_email, h]
  · simp [approve_email, h, hs]
  · simp [send_email, h, hs]

/-- Witness for C1 at a concrete toolkit in state `SENT`. -/
theorem approve_send_guarded_witness :
    approve_email sentSample true = (sentSample, .error .invalidTransition) ∧
    send_email sentSample = (sentSample, .error .invalidTransition) :=
  ⟨((approve_send_guarded sentSample true).2 sampleDraft rfl).1 (by decide),
   ((approve_send_guarded sentSample true).2 sampleDraft rfl).2 (by decide)⟩

/-- C2: for every prior toolkit value (any state, draft present or not) and
non-empty recipient and subject, `draft_email` succeeds and the resulting
toolkit is exactly a fresh one: the generated draft stored, state `DRAFT`,
and the (spec-modelled) review notes empty. -/
theorem draft_email_total_reset (t : EmailWorkflowToolkit) (r s p : String)
    (_hr : r ≠ "") (_hs : s ≠ "") :
    draft_email t r s p
      = ({ workflow_state := .DRAFT, email_draft := some (mkDraft r s p),
           review_notes := [] }, .ok (mkDraft r s p)) := rfl

/-- Witness for C2: resetting from a `SENT` toolkit with concrete
non-empty inputs. -/
theorem draft_email_total_reset_witness :
    ("a@b.com" : String) ≠ "" ∧ ("Q1 Sync" : String) ≠ "" ∧
    draft_email sentSample "a@b.com" "Q1 Sync" "follow-up"
      = ({ workflow_state := .DRAFT,
           email_draft := some (mkDraft "a@b.com" "Q1 Sync" "follow-up"),
           review_notes := [] }, .ok (mkDraft "a@b.com" "Q1 Sync" "follow-up")) :=
  ⟨by decide, by decide,
   draft_email_total_reset sentSample "a@b.com" "Q1 Sync" "follow-up"
     (by decide) (by decide)⟩

/-- C3: whenever a draft exists `review_email` succeeds — with no condition
on the current state — moving the state to `REVIEW` and reporting the
computed findings (appended to the spec-modelled notes); with no draft it
returns the no-draft error and mutates nothing. -/
theorem review_email_ungated (t : EmailWorkflowToolkit) (fb : Option String) :
    (t.email_draft = none → review_email t fb = (t, .error .noDraft)) ∧
    (∀ d, t.email_draft = some d →
      review_email t fb
        = ({ t with
             workflow_state := .REVIEW,
             review_notes := t.review_notes ++ reviewPoints d fb },
           .ok (reviewPoints d fb))) := by
  refine ⟨fun h => ?_, fun d h => ?_⟩
  · simp [review_email, h]
  · simp [review_email, h]

/-- Witness for C3: the no-draft error on the initial toolkit, and a
successful review from the (post-send) state `SENT`. -/
theorem review_email_ungated_witness :
    review_email initToolkit none = (initToolkit, .error .noDraft) ∧
    (review_email sentSample none).1.workflow_state = .REVIEW :=
  ⟨(review_email_ungated initToolkit none).1 rfl,
   by rw [(review_email_ungated sentSample none).2 sampleDraft rfl]⟩

/-- C5: the rejection round-trip `create` then `review` then
`approve false` ends back in state `DRAFT`, with the draft payload exactly
the one produced by the `create` (byte for byte), and with the review
notes equal to the review's findings — non-empty, and not cleared by the
rejection. -/
theorem reject_round_trip (t : EmailWorkflowToolkit) (r s p : String)
    (fb : Option String) :
    ((approve_email (review_email (draft_email t r s p).1 fb).1 false).1.workflow_state
        = .DRAFT) ∧
    ((approve_email (review_email (draft_email t r s p).1 fb).1 false).1.email_draft
        = (draft_email t r s p).1.email_draft) ∧
    ((approve_email (review_email (draft_email t r s p).1 fb).1 false).1.email_draft
        = some (mkDraft r s p)) ∧
    ((approve_email (review_email (draft_email t r s p).1 fb).1 false).1.review_notes
        = reviewPoints (mkDraft r s p) fb) ∧
    ((approve_email (review_email (draft_email t r s p).1 fb).1 false).1.review_notes
        ≠ []) := by
  refine ⟨rfl, rfl, rfl, ?_, ?_⟩
  · show [] ++ reviewPoints (mkDraft r s p) fb = reviewPoints (mkDraft r s p) fb
    simp
  · show [] ++ reviewPoints (mkDraft r s p) fb ≠ []
    simpa using reviewPoints_ne_nil (mkDraft r s p) fb

/-- C6 counterexample: `draft_email` called with empty recipient AND empty
subject does not signal any validation error — it succeeds, stores the
draft built from the empty strings, and sets state `DRAFT`. -/
theorem draft_email_empty_inputs_accepted :
    (draft_email initToolkit "" "" "follow-up").2 = .ok (mkDraft "" "" "follow-up") ∧
    (draft_email initToolkit "" "" "follow-up").2 ≠ .error .validation ∧
    (draft_email initToolkit "" "" "follow-up").1.email_draft
      = some (mkDraft "" "" "follow-up") ∧
    (draft_email initToolkit "" "" "follow-up").1.workflow_state = .DRAFT := by
  refine ⟨rfl, ?_, rfl, rfl⟩
  simp [draft_email]

/-- C6 amended: `draft_email` performs no input validation at all — for
every toolkit value and every recipient, subject and purpose (empty strings
included) it succeeds, never signalling an error, and stores the generated
draft with state `DRAFT`. -/
theorem draft_email_never_validates (t : EmailWorkflowToolkit) (r s p : String) :
    (draft_email t r s p).2 = .ok (mkDraft r s p) ∧
    (∀ e : WfError, (draft_email t r s p).2 ≠ .error e) ∧
    (draft_email t r s p).1.email_draft = some (mkDraft r s p) ∧
    (draft_email t r s p).1.workflow_state = .DRAFT := by
  refine ⟨rfl, fun e => ?_, rfl, rfl⟩
  simp [draft_email]

/-- C10: `approve_email` with its `approved` argument left to the Python
default is the same call as `approve_email` with `true`, and from state
`REVIEW` with a draft present it moves the toolkit to `APPROVED`. -/
theorem approve_email_default_arg (t : EmailWorkflowToolkit) (d : EmailDraft)
    (hd : t.email_draft = some d) (hs : t.workflow_state = .REVIEW) :
    approve_email t = approve_email t true ∧
    approve_email t = ({ t with workflow_state := .APPROVED }, .ok true) := by
  refine ⟨rfl, ?_⟩
  simp [approve_email, hd, hs]

/-- Witness for C10 at a concrete toolkit in state `REVIEW`. -/
theorem approve_email_default_arg_witness :
    approve_email reviewSample
      = ({ reviewSample with workflow_state := .APPROVED }, .ok true) :=
  (approve_email_default_arg reviewSample sampleDraft rfl rfl).2

/-- C8: a purpose whose lower-casing is none of the three template keys
produces a successful draft whose body is the generic fallback template;
and the body depends on the purpose only through its lower-casing, so
matching of known purposes is case-insensitive. -/
theorem unknown_purpose_fallback (t : EmailWorkflowToolkit) (r s p : String)
    (hp : pyLower p ≠ "follow-up") (hp2 : pyLower p ≠ "proposal")
    (hp3 : pyLower p ≠ "support") :
    (draft_email t r s p).2 = .ok (mkDraft r s p) ∧
    (mkDraft r s p).body = defaultTemplate r s ∧
    (∀ q₁ q₂ : String, pyLower q₁ = pyLower q₂ → mkBody r s q₁ = mkBody r s q₂) := by
  refine ⟨rfl, ?_, fun q₁ q₂ h => ?_⟩
  · simp [mkDraft, mkBody, hp, hp2, hp3]
  · simp only [mkBody, h]

/-- Witness for C8: the spec's "unknown-category" purpose falls back to the
generic template, and an upper-cased known purpose matches its template. -/
theorem unknown_purpose_fallback_witness :
    pyLower "unknown-category" ≠ "follow-up" ∧
    (mkDraft "a@b.com" "Q1 Sync" "unknown-category").body
      = defaultTemplate "a@b.com" "Q1 Sync" ∧
    mkBody "a@b.com" "Q1 Sync" "FOLLOW-UP" = mkBody "a@b.com" "Q1 Sync" "follow-up" :=
  ⟨by decide,
   (unknown_purpose_fallback initToolkit "a@b.com" "Q1 Sync" "unknown-category"
     (by decide) (by decide) (by decide)).2.1,
   (unknown_purpose_fallback initToolkit "a@b.com" "Q1 Sync" "unknown-category"
     (by decide) (by decide) (by decide)).2.2 "FOLLOW-UP" "follow-up" (by decide)⟩

/-- C9: every toolkit state reachable through the operations carries one of
the four lifecycle states `DRAFT`, `REVIEW`, `APPROVED`, `SENT`; the fifth
declared enum value `COMPLETED` is never assigned and is unreachable. -/
theorem reachable_never_completed (t : EmailWorkflowToolkit) (h : Reachable t) :
    (t.workflow_state = .DRAFT ∨ t.workflow_state = .REVIEW ∨
     t.workflow_state = .APPROVED ∨ t.workflow_state = .SENT) ∧
    t.workflow_state ≠ .COMPLETED := by
  have key : t.workflow_state ≠ .COMPLETED := by
    induction h with
    | init => simp [initToolkit]
    | draft t r s p _ ih => simp [draft_email]
    | review t fb _ ih =>
      cases hd : t.email_draft with
      | none => simpa [review_email, hd] using ih
      | some d => simp [review_email, hd]
    | approve t b _ ih =>
      cases hd : t.email_draft with
      | none => simpa [approve_email, hd] using ih
      | some d =>
        by_cases hs : t.workflow_state = .REVIEW
        · cases b <;> simp [approve_email, hd, hs]
        · simpa [approve_email, hd, hs] using ih
    | send t _ ih =>
      cases hd : t.email_draft with
      | none => simpa [send_email, hd] using ih
      | some d =>
        by_cases hs : t.workflow_state = .APPROVED
        · simp [send_email, hd, hs]
        · simpa [send_email, hd, hs] using ih
  refine ⟨?_, key⟩
  cases hw : t.workflow_state <;> simp_all

/-- Witness for C9 at the initial (reachable) toolkit. -/
theorem reachable_never_completed_witness :
    initToolkit.workflow_state = .DRAFT ∧
    initToolkit.workflow_state ≠ .COMPLETED :=
  ⟨rfl, (reachable_never_completed initToolkit Reachable.init).2⟩

/-- The toolkit reached by the happy path
create, review, approve(true), send — a reachable state in `SENT`. -/
def sentT : EmailWorkflowToolkit :=
  (send_email (approve_email (review_email
    (draft_email initToolkit "a@b.com" "Q1 Sync" "follow-up").1 none).1 true).1).1

/-- C4 counterexample: `sentT` is a reachable instance in state `SENT`,
yet `review_email` invoked on it does not signal an error — it succeeds and
changes the state to `REVIEW`, so an operation other than create leaves
`Sent`. -/
theorem sent_not_terminal_for_review :
    Reachable sentT ∧
    sentT.workflow_state = .SENT ∧
    (review_email sentT none).2
      = .ok (reviewPoints (mkDraft "a@b.com" "Q1 Sync" "follow-up") none) ∧
    (review_email sentT none).1.workflow_state = .REVIEW := by
  refine ⟨?_, rfl, rfl, rfl⟩
  exact Reachable.send _ (Reachable.approve _ true (Reachable.review _ none
    (Reachable.draft _ "a@b.com" "Q1 Sync" "follow-up" Reachable.init)))

/-- C4 amended: from state `SENT`, `approve_email` and `send_email` do
signal a typed error and leave the toolkit unchanged, but `review_email`
succeeds and transitions to `REVIEW` (and `draft_email` resets to `DRAFT`):
the transitions out of `Sent` are create and review, not create alone. -/
theorem sent_terminal_only_for_approve_send (t : EmailWorkflowToolkit)
    (d : EmailDraft) (b : Bool) (fb : Option String) (r s p : String)
    (hd : t.email_draft = some d) (hs : t.workflow_state = .SENT) :
    approve_email t b = (t, .error .invalidTransition) ∧
    send_email t = (t, .error .invalidTransition) ∧
    (review_email t fb).1.workflow_state = .REVIEW ∧
    (review_email t fb).2 = .ok (reviewPoints d fb) ∧
    (draft_email t r s p).1.workflow_state = .DRAFT := by
  refine ⟨?_, ?_, ?_, ?_, rfl⟩
  · simp [approve_email, hd, hs]
  · simp [send_email, hd, hs]
  · simp [review_email, hd]
  · simp [review_email, hd]

/-- Witness for the amended C4 at a concrete `SENT` toolkit. -/
theorem sent_terminal_only_for_approve_send_witness :
    send_email sentSample = (sentSample, .error .invalidTransition) ∧
    (review_email sentSample none).1.workflow_state = .REVIEW :=
  ⟨(sent_terminal_only_for_approve_send sentSample sampleDraft true none
      "x" "y" "z" rfl rfl).2.1,
   (sent_terminal_only_for_approve_send sentSample sampleDraft true none
      "x" "y" "z" rfl rfl).2.2.1⟩

theorem hfne₁ (f : String) :
    (("💭 Human feedback: " ++ f) = "📧 Subject line seems too short") = False :=
  eq_false (hfNe f _ (by decide))

theorem hfne₂ (f : String) :
    (("💭 Human feedback: " ++ f) = "📧 Subject line might be too long") = False :=
  eq_false (hfNe f _ (by decide))

theorem hfne₃ (f : String) :
    (("💭 Human feedback: " ++ f) = "📝 Email body seems very brief") = False :=
  eq_false (hfNe f _ (by decide))

theorem hfne₄ (f : String) :
    (("💭 Human feedback: " ++ f) = "🏢 Consider adding company branding") = False :=
  eq_false (hfNe f _ (by decide))

theorem hfne₅ (f : String) :
    (("💭 Human feedback: " ++ f) = "✅ Email looks good, ready for approval") = False :=
  eq_false (hfNe f _ (by decide))

theorem nehf₁ (f : String) :
    ("📧 Subject line seems too short" = ("💭 Human feedback: " ++ f)) = False :=
  eq_false fun h => hfNe f _ (by decide) h.symm

theorem nehf₂ (f : String) :
    ("📧 Subject line might be too long" = ("💭 Human feedback: " ++ f)) = False :=
  eq_false fun h => hfNe f _ (by decide) h.symm

theorem nehf₃ (f : String) :
    ("📝 Email body seems very brief" = ("💭 Human feedback: " ++ f)) = False :=
  eq_false fun h => hfNe f _ (by decide) h.symm

theorem nehf₄ (f : String) :
    ("🏢 Consider adding company branding" = ("💭 Human feedback: " ++ f)) = False :=
  eq_false fun h => hfNe f _ (by decide) h.symm

theorem nehf₅ (f : String) :
    ("✅ Email looks good, ready for approval" = ("💭 Human feedback: " ++ f)) = False :=
  eq_false fun h => hfNe f _ (by decide) h.symm

/-- A draft that passes every heuristic check: subject length between 5 and
50, body of at least 50 characters containing the brand marker. -/
def cleanDraft : EmailDraft :=
  { recipient := "r", subject := "Hello there",
    body := "Many thanks from your friends at ACME Corporation today.",
    purpose := "misc" }

/-- C7 counterexample: reviewing `cleanDraft` — a draft none of the four
heuristic checks flags — with the feedback "needs more detail" yields the
human-feedback finding alone: no looks-good finding is emitted even though
no flag was produced. -/
theorem looks_good_suppressed_by_feedback :
    reviewPoints cleanDraft (some "needs more detail")
      = ["💭 Human feedback: needs more detail"] ∧
    "✅ Email looks good, ready for approval"
      ∉ reviewPoints cleanDraft (some "needs more detail") ∧
    reviewPoints cleanDraft none
      = ["✅ Email looks good, ready for approval"] := by
  refine ⟨by decide, by decide, by decide⟩

set_option maxHeartbeats 2000000 in
/-- C7 amended: for every draft and optional feedback, the review findings
are characterised exactly: the subject-too-short flag appears iff the
subject is shorter than 5; the subject-too-long flag iff it is longer
than 50 (the short check not having fired); the body-too-brief flag iff the
body is shorter than 50; the missing-branding flag iff the body is not
brief and lacks the brand marker; a non-empty feedback always contributes
the human-feedback finding carrying it verbatim; and the looks-good finding
appears iff no flag was produced AND no (non-empty) feedback was supplied —
feedback alone suppresses it. -/
theorem review_findings_exact (d : EmailDraft) (fb : Option String) :
    (("📧 Subject line seems too short" ∈ reviewPoints d fb) ↔
      d.subject.length < 5) ∧
    (("📧 Subject line might be too long" ∈ reviewPoints d fb) ↔
      (¬ d.subject.length < 5 ∧ 50 < d.subject.length)) ∧
    (("📝 Email body seems very brief" ∈ reviewPoints d fb) ↔
      d.body.length < 50) ∧
    (("🏢 Consider adding company branding" ∈ reviewPoints d fb) ↔
      (¬ d.body.length < 50 ∧ strContains d.body "ACME Corporation" = false)) ∧
    (∀ f, fb = some f → f ≠ "" →
      ("💭 Human feedback: " ++ f) ∈ reviewPoints d fb) ∧
    (("✅ Email looks good, ready for approval" ∈ reviewPoints d fb) ↔
      (¬ d.subject.length < 5 ∧ ¬ 50 < d.subject.length ∧
       ¬ d.body.length < 50 ∧ strContains d.body "ACME Corporation" = true ∧
       (fb = none ∨ fb = some ""))) := by
  unfold reviewPoints
  rcases fb with _ | f
  · dsimp only
    split_ifs <;> simp_all
  · by_cases hf0 : f = "" <;>
      [subst hf0; skip] <;>
      dsimp only <;>
      split_ifs <;>
      simp_all [hfne₁, hfne₂, hfne₃, hfne₄, hfne₅,
        nehf₁, nehf₂, nehf₃, nehf₄, nehf₅]

/-- Witness for the amended C7: the human-feedback finding produced at
`cleanDraft` with concrete non-empty feedback. -/
theorem review_findings_exact_witness :
    ("💭 Human feedback: " ++ "needs more detail")
      ∈ reviewPoints cleanDraft (some "needs more detail") :=
  (review_findings_exact cleanDraft (some "needs more detail")).2.2.2.2.1
    "needs more detail" rfl (by decide)
